import Mathlib

/-!
Verification of the agentcore discovery-aggregation-dispatch router.

This file shallowly embeds the router core of the repository:
the per-server connector and catalog aggregation (`connect_to_mcp_server`,
`get_all_aws_mcp_tools` in `agent_with_aws_mcp.py`), the namespaced dispatch
(`execute_aws_mcp_tool` in `agent_with_aws_mcp.py`, `execute_mcp_tool` in
`agent_with_external_mcp.py`), the gateway proxy adapter
(`GatewayToolExecutor.execute_tool` in `agent_with_gateway_official_mcp.py`),
the missing-configuration paths (`agent_with_official_aws_mcp.py`,
`agent_with_gateway_official_mcp.py`), and the whitelisted `run_command`
tool of `agent_with_multiple_mcp.py`.

Remote MCP sessions, the gateway endpoint and the shell are modelled as
explicit function parameters (`Remote`, `GatewayCall`, shell): a call either
returns a result value or raises, which the Python code catches inside its
`try` blocks. Python exceptions that escape (raised outside a `try`) are
modelled by the `Except PyExn` return type of the dispatcher embeddings.

Python string primitives (`str.split`, `str.join`, `str.replace`,
`in`-substring test) are embedded by structurally recursive functions on the
character list of a `String`, matching CPython semantics on the cases used
by the code; they compute by kernel reduction.
-/

namespace AgentCore

/-! ### Python string primitives -/

/-- Auxiliary for `pySplit`: splits a character list at every occurrence of
`sep`, accumulating the current (reversed) segment. -/
def splitCharAux (sep : Char) : List Char → List Char → List (List Char)
  | [], acc => [acc.reverse]
  | c :: rest, acc =>
    if c = sep then acc.reverse :: splitCharAux sep rest []
    else splitCharAux sep rest (c :: acc)

/-- Python `s.split(sep)` for a one-character separator: keeps empty
segments, and `"".split(sep) = [""]`. -/
def pySplit (s : String) (sep : Char) : List String :=
  (splitCharAux sep s.data []).map String.mk

/-- Python `sep.join(parts)` for a one-character separator. -/
def pyJoin (sep : Char) : List String → String
  | [] => ""
  | [s] => s
  | s :: rest => s ++ String.mk [sep] ++ pyJoin sep rest

/-- Auxiliary for `pyReplace`: left-to-right, non-overlapping replacement of
`pat` by `repl`, fuelled by the input length (for a non-empty `pat` the fuel
`s.length` always suffices). -/
def replaceFuel (pat repl : List Char) : Nat → List Char → List Char
  | 0, s => s
  | _ + 1, [] => []
  | n + 1, c :: rest =>
    if pat.isPrefixOf (c :: rest) then
      repl ++ replaceFuel pat repl n ((c :: rest).drop pat.length)
    else c :: replaceFuel pat repl n rest

/-- Python `s.replace(pat, repl)` for a non-empty `pat`: replaces every
non-overlapping occurrence, scanning left to right. -/
def pyReplace (s pat repl : String) : String :=
  String.mk (replaceFuel pat.data repl.data s.data.length s.data)

/-- Auxiliary for `pyContains`. -/
def containsAux (pat : List Char) : List Char → Bool
  | [] => pat.isEmpty
  | c :: rest => pat.isPrefixOf (c :: rest) || containsAux pat rest

/-- Python `pat in s` (substring containment). -/
def pyContains (s pat : String) : Bool := containsAux pat.data s.data

/-- Auxiliary for `pySplitWs`: splits at every character satisfying `p`. -/
def splitPredAux (p : Char → Bool) : List Char → List Char → List (List Char)
  | [], acc => [acc.reverse]
  | c :: rest, acc =>
    if p c then acc.reverse :: splitPredAux p rest []
    else splitPredAux p rest (c :: acc)

/-- Python `s.split()` with no argument: splits on whitespace runs and drops
empty segments, so `"".split() = []` and leading/trailing blanks vanish. -/
def pySplitWs (s : String) : List String :=
  ((splitPredAux Char.isWhitespace s.data []).filter (fun t => ¬ t.isEmpty)).map String.mk

/-- Python `sep.join(parts)` for an arbitrary string separator. -/
def pyJoinS (sep : String) : List String → String
  | [] => ""
  | [s] => s
  | s :: rest => s ++ sep ++ pyJoinS sep rest

/-- Strips `pat` from the end of `s` when `s` ends with it; otherwise
returns `s` unchanged. Spec-side helper (the claim's "suffix stripped"). -/
def stripSuffixOnce (s pat : String) : String :=
  if pat.data.isSuffixOf s.data then
    String.mk (s.data.take (s.data.length - pat.data.length))
  else s

/-- Spec-side fallback name: the proxy operation's own name with the
`"_proxy"` suffix stripped. -/
def stripProxySuffix (tool_name : String) : String :=
  stripSuffixOnce tool_name "_proxy"

/-! ### Data model -/

/-- One text element of an MCP tool-call response (`result.content[i].text`). -/
structure TextContent where
  text : String
deriving DecidableEq

/-- An MCP tool-call response: a list of content elements. -/
structure CallToolResult where
  content : List TextContent
deriving DecidableEq

/-- A Python value as it appears in tool-argument dictionaries: a string, an
integer, or a string-keyed dictionary. -/
inductive PyVal where
  | str : String → PyVal
  | int : Int → PyVal
  | dict : List (String × PyVal) → PyVal

/-- A tool-argument dictionary (`arguments: dict`); keys are unique in a
Python dict, lookup is first-match association lookup. -/
abbrev Args := List (String × PyVal)

/-- Python `d.get(k, default)` on an argument dictionary. -/
def pyGet (d : Args) (k : String) (default : PyVal) : PyVal :=
  (d.lookup k).getD default

/-- A Python exception escaping a function (raised outside every `try`). -/
inductive PyExn where
  | indexError
  | keyError
deriving DecidableEq

/-- A remote MCP session scoped to one call: given the server url, the
un-prefixed tool name and the arguments, either returns the response or
raises (modelled as `.error` carrying `str(e)`). Connection, handshake and
call failures are all `.error` outcomes. -/
abbrev Remote := String → String → Args → Except String CallToolResult

/-! ### `agent_with_aws_mcp.py`: registry, connector, aggregator, dispatcher -/

/-- One entry of `AWS_MCP_SERVERS`. -/
structure ServerConfig where
  url : String
  description : String
deriving DecidableEq

/-- The `AWS_MCP_SERVERS` registry of `agent_with_aws_mcp.py` (insertion
order of the Python dict). -/
def AWS_MCP_SERVERS : List (String × ServerConfig) :=
  [("aws_diagram", ⟨"http://localhost:8000/mcp", "AWS architecture diagram generation"⟩),
   ("aws_eks", ⟨"http://localhost:8001/mcp", "EKS cluster management and operations"⟩),
   ("aws_terraform", ⟨"http://localhost:8002/mcp", "Terraform configuration generation and management"⟩),
   ("aws_cost", ⟨"http://localhost:8003/mcp", "AWS cost analysis and optimization"⟩),
   ("github", ⟨"http://localhost:8004/mcp", "GitHub repository and operations management"⟩)]

/-- The forward namespacing rule `f"{server_name}_{tool.name}"` used by
`connect_to_mcp_server` (line 81) and `get_mcp_tools_from_servers`
(line 82). -/
def namespaced (server_name tool_name : String) : String :=
  server_name ++ "_" ++ tool_name

/-- `connect_to_mcp_server(server_name, config)`: on a successful session,
returns the server's listed tool names each prefixed with the server name;
any exception during connect/handshake/list is caught and yields `[]`.
`listing` is the outcome of the remote `list_tools` exchange: `some tools`
on success, `none` when the connection attempt raised. -/
def connect_to_mcp_server (server_name : String) (listing : Option (List String)) :
    List String :=
  match listing with
  | some tools => tools.map (fun t => namespaced server_name t)
  | none => []

/-- `get_all_aws_mcp_tools()`: folds over the registry, extending the merged
list with each server's (possibly empty) connector result. The registry is a
parameter so that the aggregation behaviour is stated for every registry the
loop could iterate; each entry carries its connector outcome. -/
def get_all_aws_mcp_tools (registry : List (String × Option (List String))) :
    List String :=
  registry.flatMap (fun p => connect_to_mcp_server p.1 p.2)

/-- The (server, original-name) pairs returned by successful connector
calls, in traversal order. -/
def successPairs (registry : List (String × Option (List String))) :
    List (String × String) :=
  registry.flatMap (fun p =>
    match p.2 with
    | some tools => tools.map (fun t => (p.1, t))
    | none => [])

/-- The reverse parse of `execute_aws_mcp_tool` (lines 103-104):
`server_name = tool_name.split('_')[0] + '_' + tool_name.split('_')[1]`,
`original_tool_name = '_'.join(tool_name.split('_')[2:])`. Indexing `[1]`
raises `IndexError` when the split has fewer than two segments; that case is
`none`. -/
def aws_parse (tool_name : String) : Option (String × String) :=
  match pySplit tool_name '_' with
  | p0 :: p1 :: rest => some (p0 ++ "_" ++ p1, pyJoin '_' rest)
  | _ => none

/-- `execute_aws_mcp_tool(tool_name, arguments)`: parses the namespaced name
(outside the `try` block, so a short name raises `IndexError`), looks the
server up, and performs the remote call inside `try`, normalising the
response to its first text element or `"No result"` and converting any
exception into a `"Tool execution error: ..."` string. -/
def execute_aws_mcp_tool (remote : Remote) (tool_name : String) (arguments : Args) :
    Except PyExn String :=
  match aws_parse tool_name with
  | none => .error .indexError
  | some (server_name, original_tool_name) =>
    match AWS_MCP_SERVERS.lookup server_name with
    | none => .ok ("Server " ++ server_name ++ " not found")
    | some config =>
      match remote config.url original_tool_name arguments with
      | .ok result =>
        match result.content with
        | c :: _ => .ok c.text
        | [] => .ok "No result"
      | .error e => .ok ("Tool execution error: " ++ e)

/-! ### `agent_with_external_mcp.py`: registry and dispatcher -/

/-- One entry of `MCP_SERVERS` in `agent_with_external_mcp.py`; `url` is
`Option` because the gateway entry reads `os.getenv('GATEWAY_URL')`, which
may be `None`. -/
structure ExtServerConfig where
  url : Option String
  auth : Option String
deriving DecidableEq

/-- The `MCP_SERVERS` registry of `agent_with_external_mcp.py`,
parameterised by the two environment variables read at import time. -/
def MCP_SERVERS (gatewayUrl gatewayToken : Option String) :
    List (String × ExtServerConfig) :=
  [("filesystem", ⟨some "http://localhost:8001/mcp", none⟩),
   ("database", ⟨some "http://localhost:8002/mcp", none⟩),
   ("agentcore_gateway", ⟨gatewayUrl, gatewayToken⟩)]

/-- The reverse parse of `execute_mcp_tool` (lines 94-95):
`server_name = tool_name.split('_')[0]`,
`original_tool_name = '_'.join(tool_name.split('_')[1:])`. `split` never
returns an empty list, so indexing `[0]` cannot raise here. -/
def ext_parse (tool_name : String) : String × String :=
  match pySplit tool_name '_' with
  | [] => ("", "")
  | p0 :: rest => (p0, pyJoin '_' rest)

/-- `execute_mcp_tool(tool_name, arguments)`: parses the namespaced name
(first segment only), checks the registry entry and its url, and performs
the remote call inside `try` with the same response normalisation as the
AWS variant. Every path returns a string; nothing is raised. -/
def execute_mcp_tool (gatewayUrl gatewayToken : Option String) (remote : Remote)
    (tool_name : String) (arguments : Args) : Except PyExn String :=
  let parsed := ext_parse tool_name
  let server_name := parsed.1
  let original_tool_name := parsed.2
  match (MCP_SERVERS gatewayUrl gatewayToken).lookup server_name with
  | none => .ok ("Server " ++ server_name ++ " not available")
  | some config =>
    match config.url with
    | none => .ok ("Server " ++ server_name ++ " not available")
    | some url =>
      match remote url original_tool_name arguments with
      | .ok result =>
        match result.content with
        | c :: _ => .ok c.text
        | [] => .ok "No result"
      | .error e => .ok ("Tool execution error: " ++ e)

/-! ### `agent_with_gateway_official_mcp.py`: gateway proxy adapter -/

/-- A gateway session scoped to one call: given the tool name and the
payload sent as arguments, either returns the response or raises. -/
abbrev GatewayCall := String → PyVal → Except String CallToolResult

/-- `GatewayToolExecutor.execute_tool(tool_name, arguments)`. The
executor's `self.config` is the dictionary loaded by `_load_config` (empty
when the config file is unreadable). Besides the result string, the
embedding returns the single gateway call performed, as
`some (sent tool name, sent payload)`, or `none` when no call was issued.
`self.config["gateway_url"]` / `["access_token"]` are read outside the
`try` block, so a non-empty config missing either key raises `KeyError`.
Inside `try`: a name containing the substring `'_proxy'` is repackaged as
`{'tool_name': arguments.get('tool_name', tool_name.replace('_proxy','')),
'arguments': arguments.get('arguments', arguments)}` and sent under the
proxy name itself; otherwise the raw arguments dictionary is sent. The
response is normalised to its first text element or
`"Tool executed successfully"`, and an exception from the call becomes a
`"Gateway tool execution error: ..."` string. -/
def gateway_execute_tool (config : List (String × String)) (call : GatewayCall)
    (tool_name : String) (arguments : Args) :
    Except PyExn (String × Option (String × PyVal)) :=
  match config with
  | [] => .ok ("Gateway not configured", none)
  | _ :: _ =>
    match config.lookup "gateway_url", config.lookup "access_token" with
    | none, _ => .error .keyError
    | some _, none => .error .keyError
    | some _, some _ =>
      let sent : String × PyVal :=
        if pyContains tool_name "_proxy" then
          let actual_tool_name := pyGet arguments "tool_name"
            (.str (pyReplace tool_name "_proxy" ""))
          let mcp_arguments := pyGet arguments "arguments" (.dict arguments)
          (tool_name, .dict [("tool_name", actual_tool_name),
                             ("arguments", mcp_arguments)])
        else
          (tool_name, .dict arguments)
      match call sent.1 sent.2 with
      | .ok result =>
        match result.content with
        | c :: _ => .ok (c.text, some sent)
        | [] => .ok ("Tool executed successfully", some sent)
      | .error e => .ok ("Gateway tool execution error: " ++ e, some sent)

/-- Spec-side payload of the Gateway Proxy Adapter contract, written from
the claim's words: `tool_name` is `A["tool_name"]` when present, otherwise
the proxy operation's own name with the `"_proxy"` suffix stripped;
`arguments` is `A["arguments"]` when present, otherwise `A` itself. Used
only to compare the claim against `gateway_execute_tool`. -/
def specProxyPayloadSuffix (tool_name : String) (arguments : Args) : PyVal :=
  .dict [("tool_name", pyGet arguments "tool_name" (.str (stripProxySuffix tool_name))),
         ("arguments", pyGet arguments "arguments" (.dict arguments))]

/-- The payload `gateway_execute_tool` actually builds for a proxy tool,
with the fallback name computed by removing every occurrence of the
substring `"_proxy"` (Python `str.replace`). -/
def proxyPayload (tool_name : String) (arguments : Args) : PyVal :=
  .dict [("tool_name", pyGet arguments "tool_name"
            (.str (pyReplace tool_name "_proxy" ""))),
         ("arguments", pyGet arguments "arguments" (.dict arguments))]

/-! ### Missing-configuration paths -/

/-- `get_all_aws_mcp_tools()` of `agent_with_official_aws_mcp.py`:
`configFile` is `some serverConfig` when `aws_mcp_config.json` exists and
parses, `none` when the file is absent. `connectResult` models
`connect_to_aws_mcp_server(server_name, path)`, which returns the prefixed
tools on success and `[]` on any failure. Returns the merged list together
with the diagnostic messages printed. -/
def official_get_all_aws_mcp_tools (configFile : Option (List (String × String)))
    (connectResult : String → String → List String) : List String × List String :=
  match configFile with
  | none => ([], ["❌ AWS MCP config not found. Run setup_aws_official_mcp.py first"])
  | some server_config =>
    (server_config.flatMap (fun p => connectResult p.1 p.2), [])

/-- The gateway configuration file `official_mcp_gateway_config.json`. -/
structure GatewayConfig where
  gateway_url : String
  access_token : String
deriving DecidableEq

/-- `connect_to_gateway()` of `agent_with_gateway_official_mcp.py`:
returns `[]` with a diagnostic when the config file is absent; otherwise
returns the gateway's tool listing, or `[]` with a diagnostic when the
session raised. -/
def connect_to_gateway (configFile : Option GatewayConfig)
    (listing : Except String (List String)) : List String × List String :=
  match configFile with
  | none => ([], ["❌ Gateway config not found. Run setup_gateway_with_official_mcp.py first"])
  | some _ =>
    match listing with
    | .ok tools => (tools, [])
    | .error e => ([], ["❌ Failed to connect to Gateway: " ++ e])

/-! ### `agent_with_multiple_mcp.py`: the `run_command` tool -/

/-- The whitelist of `run_command`. -/
def safe_commands : List String := ["ls", "pwd", "date", "whoami", "df", "free"]

/-- Outcome of `subprocess.run(command, shell=True, ...)`: captured stdout
and stderr on completion, or an exception (timeout etc.) as `.error`. -/
abbrev Shell := String → Except String (String × String)

/-- `run_command(command)`: splits the input on whitespace, refuses unless
the first token is whitelisted, and otherwise runs the entire original
string through the shell, returning stdout truncated to 500 characters when
non-empty, else stderr truncated likewise; a subprocess exception becomes a
`"Command error: ..."` string. The second component records the command
string handed to the shell (`none` when no subprocess was started). -/
def run_command (shell : Shell) (command : String) : String × Option String :=
  let cmd_parts := pySplitWs command
  match cmd_parts with
  | [] => ("Command not allowed. Safe commands: " ++ pyJoinS ", " safe_commands, none)
  | first :: _ =>
    if first ∈ safe_commands then
      match shell command with
      | .ok result =>
        (if ¬ result.1.isEmpty then result.1.take 500 else result.2.take 500,
         some command)
      | .error e => ("Command error: " ++ e, some command)
    else
      ("Command not allowed. Safe commands: " ++ pyJoinS ", " safe_commands, none)

/-! ### Helper lemmas -/

/-- Aggregation is exactly the forward namespacing map over the successful
(server, original name) pairs, for every registry. -/
lemma aggregate_eq_map (registry : List (String × Option (List String))) :
    get_all_aws_mcp_tools registry
      = (successPairs registry).map (fun p => namespaced p.1 p.2) := by
  induction registry with
  | nil => rfl
  | cons hd tl ih =>
    obtain ⟨s, r⟩ := hd
    cases r with
    | none =>
      simpa [get_all_aws_mcp_tools, successPairs, connect_to_mcp_server] using ih
    | some tools =>
      have h1 : get_all_aws_mcp_tools ((s, some tools) :: tl)
          = tools.map (fun t => namespaced s t) ++ get_all_aws_mcp_tools tl := by
        simp [get_all_aws_mcp_tools, connect_to_mcp_server]
      have h2 : successPairs ((s, some tools) :: tl)
          = tools.map (fun t => (s, t)) ++ successPairs tl := by
        simp [successPairs]
      rw [h1, h2, List.map_append, List.map_map, ih]
      rfl

/-- Two distinct list members with the same image under `f` force the image
to occur at least twice in the mapped list. -/
lemma two_le_count_map {α β : Type} [DecidableEq α] [DecidableEq β]
    (f : α → β) (l : List α) (a b : α) (ha : a ∈ l) (hb : b ∈ l)
    (hab : a ≠ b) (hf : f a = f b) : 2 ≤ (l.map f).count (f a) := by
  have hperm : (l.map f).Perm (f a :: (l.erase a).map f) := by
    simpa using (List.perm_cons_erase ha).map f
  have hb' : b ∈ l.erase a := (List.mem_erase_of_ne (Ne.symm hab)).mpr hb
  have hfb : f a ∈ (l.erase a).map f := by
    rw [hf]; exact List.mem_map_of_mem f hb'
  have hpos : 0 < ((l.erase a).map f).count (f a) := List.count_pos_iff.mpr hfb
  rw [hperm.count_eq, List.count_cons_self]
  omega

/-! ### Claims -/

/-- C1 (code bug): the round-trip of namespacing fails for the registered
server `"github"`. `"github"` is a key of `AWS_MCP_SERVERS`, the forward
rule yields `"github_list_repos"` for the original name `"list_repos"`,
but the call-time reverse parse (first two underscore-delimited segments as
the server identifier) recovers `("github_list", "repos")`, not
`("github", "list_repos")`, and dispatch answers
`"Server github_list not found"` instead of routing to `"github"`. -/
theorem github_roundtrip_fails :
    (AWS_MCP_SERVERS.lookup "github").isSome = true ∧
    namespaced "github" "list_repos" = "github_list_repos" ∧
    aws_parse "github_list_repos" = some ("github_list", "repos") ∧
    aws_parse (namespaced "github" "list_repos")
      ≠ some (("github" : String), ("list_repos" : String)) ∧
    execute_aws_mcp_tool (fun _ _ _ => .ok ⟨[]⟩) "github_list_repos" []
      = .ok "Server github_list not found" :=
  ⟨by decide, by decide, by decide, by decide, rfl⟩

/-- C2: for every registry with pairwise-distinct server identifiers, the
merged tool list is exactly the namespacing map `{server_id}_{original}`
over the (server, operation) pairs returned by successful connector calls —
one entry per pair, none dropped, none duplicated. -/
theorem aggregation_one_entry_per_pair
    (registry : List (String × Option (List String)))
    (_hids : (registry.map Prod.fst).Nodup) :
    get_all_aws_mcp_tools registry
      = (successPairs registry).map (fun p => namespaced p.1 p.2) :=
  aggregate_eq_map registry

/-- Witness for C2 at a concrete three-server registry with one failure. -/
theorem aggregation_one_entry_per_pair_witness :
    get_all_aws_mcp_tools
        [("aws_eks", some ["list_clusters", "get_cluster_info"]),
         ("github", none),
         ("aws_cost", some ["get_monthly_costs"])]
      = (successPairs
          [("aws_eks", some ["list_clusters", "get_cluster_info"]),
           ("github", none),
           ("aws_cost", some ["get_monthly_costs"])]).map
          (fun p => namespaced p.1 p.2) ∧
    get_all_aws_mcp_tools
        [("aws_eks", some ["list_clusters", "get_cluster_info"]),
         ("github", none),
         ("aws_cost", some ["get_monthly_costs"])]
      = ["aws_eks_list_clusters", "aws_eks_get_cluster_info",
         "aws_cost_get_monthly_costs"] :=
  ⟨aggregation_one_entry_per_pair
      [("aws_eks", some ["list_clusters", "get_cluster_info"]),
       ("github", none),
       ("aws_cost", some ["get_monthly_costs"])] (by decide),
   by decide⟩

/-- C3: a failed server contributes an empty result and is dropped from the
merge without affecting the others — aggregation over a registry with a
failing entry equals the concatenation of the aggregations around it, and
every tool of every successful server is still present in the merged
list. -/
theorem failure_isolation
    (pre post : List (String × Option (List String))) (s : String) :
    get_all_aws_mcp_tools (pre ++ (s, none) :: post)
      = get_all_aws_mcp_tools pre ++ get_all_aws_mcp_tools post ∧
    ∀ s' ts, (s', some ts) ∈ pre ++ (s, none) :: post →
      ∀ t ∈ ts, namespaced s' t ∈ get_all_aws_mcp_tools (pre ++ (s, none) :: post) := by
  constructor
  · simp [get_all_aws_mcp_tools, connect_to_mcp_server]
  · intro s' ts hmem t ht
    unfold get_all_aws_mcp_tools
    exact List.mem_flatMap.mpr
      ⟨(s', some ts), hmem, by
        simp only [connect_to_mcp_server]
        exact List.mem_map_of_mem _ ht⟩

/-- Witness for C3: one unreachable server among three; the two others keep
their full catalogs. -/
theorem failure_isolation_witness :
    get_all_aws_mcp_tools
        [("aws_diagram", some ["generate_diagram"]), ("github", none),
         ("aws_cost", some ["get_monthly_costs"])]
      = get_all_aws_mcp_tools [("aws_diagram", some ["generate_diagram"])]
          ++ get_all_aws_mcp_tools [("aws_cost", some ["get_monthly_costs"])] ∧
    namespaced "aws_cost" "get_monthly_costs"
      ∈ get_all_aws_mcp_tools
          [("aws_diagram", some ["generate_diagram"]), ("github", none),
           ("aws_cost", some ["get_monthly_costs"])] :=
  ⟨(failure_isolation [("aws_diagram", some ["generate_diagram"])]
      [("aws_cost", some ["get_monthly_costs"])] "github").1,
   (failure_isolation [("aws_diagram", some ["generate_diagram"])]
      [("aws_cost", some ["get_monthly_costs"])] "github").2
     "aws_cost" ["get_monthly_costs"] (by decide) "get_monthly_costs" (by decide)⟩

/-- C4 (code bug): the dispatcher of `agent_with_aws_mcp.py` is not
exception-free — for a tool name with fewer than two underscore-delimited
segments, the reverse parse `tool_name.split('_')[1]` sits before the `try`
block and raises `IndexError` instead of returning a result string. -/
theorem dispatcher_raises_on_short_name :
    pySplit "status" '_' = ["status"] ∧
    execute_aws_mcp_tool (fun _ _ _ => .ok ⟨[]⟩) "status" [] = .error .indexError ∧
    execute_aws_mcp_tool (fun _ _ _ => .error "refused") "status" []
      = .error .indexError :=
  ⟨by decide, rfl, rfl⟩

/-- C5: a namespaced name whose parsed server identifier is not a registry
key is answered with a descriptive not-found/not-available string, with no
remote call (the result is the same for every remote behaviour) and no
exception, in both dispatchers. -/
theorem unknown_server_no_call
    (remote : Remote) (gatewayUrl gatewayToken : Option String)
    (tool_name : String) (arguments : Args) (server_name original : String) :
    (aws_parse tool_name = some (server_name, original) →
      AWS_MCP_SERVERS.lookup server_name = none →
      execute_aws_mcp_tool remote tool_name arguments
        = .ok ("Server " ++ server_name ++ " not found")) ∧
    (ext_parse tool_name = (server_name, original) →
      (MCP_SERVERS gatewayUrl gatewayToken).lookup server_name = none →
      execute_mcp_tool gatewayUrl gatewayToken remote tool_name arguments
        = .ok ("Server " ++ server_name ++ " not available")) := by
  constructor
  · intro hparse hlookup
    simp [execute_aws_mcp_tool, hparse, hlookup]
  · intro hparse hlookup
    simp [execute_mcp_tool, hparse, hlookup]

/-- Witness for C5 at the unknown name `"zzz_foo"`, under two different
remote behaviours. -/
theorem unknown_server_no_call_witness :
    execute_aws_mcp_tool (fun _ _ _ => .ok ⟨[⟨"data"⟩]⟩) "zzz_foo" []
      = .ok "Server zzz_foo not found" ∧
    execute_mcp_tool none none (fun _ _ _ => .error "boom") "zzz_foo" []
      = .ok "Server zzz not available" :=
  ⟨(unknown_server_no_call (fun _ _ _ => .ok ⟨[⟨"data"⟩]⟩) none none
      "zzz_foo" [] "zzz_foo" "").1 (by decide) (by decide),
   (unknown_server_no_call (fun _ _ _ => .error "boom") none none
      "zzz_foo" [] "zzz" "foo").2 (by decide) (by decide)⟩

/-- C6 counterexample: two servers with distinct identifiers (`"a"` and
`"a_b"`) whose pairs `("a", "b_c")` and `("a_b", "c")` collapse to the same
composite key `"a_b_c"`; aggregation does not fail fast — it completes
normally and the merged list carries the colliding key twice. -/
theorem collision_no_failfast_counterexample :
    (["a", "a_b"] : List String).Nodup ∧
    namespaced "a" "b_c" = namespaced "a_b" "c" ∧
    get_all_aws_mcp_tools [("a", some ["b_c"]), ("a_b", some ["c"])]
      = ["a_b_c", "a_b_c"] ∧
    ¬ (get_all_aws_mcp_tools [("a", some ["b_c"]), ("a_b", some ["c"])]).Nodup := by
  refine ⟨by decide, by decide, by decide, by decide⟩

/-- C6 as amended: for every registry in which two distinct (server,
operation) pairs of successful connector calls produce the same composite
namespaced key, aggregation neither fails nor drops or overwrites an entry:
both colliding entries are inserted, so the merged list contains the
composite key at least twice. -/
theorem collision_entries_both_kept
    (registry : List (String × Option (List String))) (p q : String × String)
    (hp : p ∈ successPairs registry) (hq : q ∈ successPairs registry)
    (hne : p ≠ q) (hcoll : namespaced p.1 p.2 = namespaced q.1 q.2) :
    2 ≤ (get_all_aws_mcp_tools registry).count (namespaced p.1 p.2) := by
  rw [aggregate_eq_map registry]
  exact two_le_count_map (fun r => namespaced r.1 r.2) (successPairs registry)
    p q hp hq hne hcoll

/-- Witness for the amended C6 at the colliding registry of the
counterexample. -/
theorem collision_entries_both_kept_witness :
    2 ≤ (get_all_aws_mcp_tools [("a", some ["b_c"]), ("a_b", some ["c"])]).count
          (namespaced "a" "b_c") :=
  collision_entries_both_kept [("a", some ["b_c"]), ("a_b", some ["c"])]
    ("a", "b_c") ("a_b", "c") (by decide) (by decide) (by decide) (by decide)

/-- C7 counterexample: for the proxy tool name `"cost_proxy_tools_proxy"`
invoked with an empty argument dictionary, the adapter's fallback removes
every occurrence of `"_proxy"` (Python `replace`), sending
`tool_name = "cost_tools"`, whereas stripping only the `"_proxy"` suffix —
what the claim states — would give `"cost_proxy_tools"`. -/
theorem proxy_fallback_counterexample :
    pyContains "cost_proxy_tools_proxy" "_proxy" = true ∧
    gateway_execute_tool
        [("gateway_url", "https://gw.example/mcp"), ("access_token", "tok")]
        (fun _ _ => .ok ⟨[⟨"ok"⟩]⟩) "cost_proxy_tools_proxy" []
      = .ok ("ok", some ("cost_proxy_tools_proxy",
          .dict [("tool_name", .str "cost_tools"), ("arguments", .dict [])])) ∧
    stripProxySuffix "cost_proxy_tools_proxy" = "cost_proxy_tools" ∧
    ("cost_tools" : String) ≠ "cost_proxy_tools" :=
  ⟨by decide, rfl, by decide, by decide⟩

/-- C7 as amended: for every proxy invocation (name containing `"_proxy"`)
against a configured gateway, exactly one call is issued, to the gateway
endpoint under the proxy operation's own name, carrying the payload
`{tool_name, arguments}` with `tool_name = A["tool_name"]` when present and
otherwise the proxy name with every occurrence of the substring `"_proxy"`
removed, and `arguments = A["arguments"]` when present and otherwise `A`
itself; this holds for every gateway behaviour, success or failure. -/
theorem proxy_repackaging
    (config : List (String × String)) (call : GatewayCall)
    (tool_name : String) (arguments : Args) (u t : String)
    (hu : config.lookup "gateway_url" = some u)
    (ht : config.lookup "access_token" = some t)
    (hproxy : pyContains tool_name "_proxy" = true) :
    ∃ r, gateway_execute_tool config call tool_name arguments
      = .ok (r, some (tool_name, proxyPayload tool_name arguments)) := by
  match config with
  | [] => simp at hu
  | _ :: _ =>
    simp only [gateway_execute_tool, hu, ht, hproxy, if_pos, proxyPayload]
    match call tool_name (proxyPayload tool_name arguments) with
    | .ok result =>
      match hc : result.content with
      | c :: _ => exact ⟨c.text, by simp [proxyPayload, hc]⟩
      | [] => exact ⟨"Tool executed successfully", by simp [proxyPayload, hc]⟩
    | .error e => exact ⟨"Gateway tool execution error: " ++ e, by simp [proxyPayload]⟩

/-- Witness for the amended C7: the scenario payload
`{"tool_name": "get_monthly_costs", "arguments": {"months": 3}}` sent to the
proxy operation `"Official_cost_proxy"`. -/
theorem proxy_repackaging_witness :
    ∃ r, gateway_execute_tool
        [("gateway_url", "https://gw.example/mcp"), ("access_token", "tok")]
        (fun _ _ => .ok ⟨[⟨"42 USD"⟩]⟩) "Official_cost_proxy"
        [("tool_name", .str "get_monthly_costs"),
         ("arguments", .dict [("months", .int 3)])]
      = .ok (r, some ("Official_cost_proxy",
          proxyPayload "Official_cost_proxy"
            [("tool_name", .str "get_monthly_costs"),
             ("arguments", .dict [("months", .int 3)])])) :=
  proxy_repackaging
    [("gateway_url", "https://gw.example/mcp"), ("access_token", "tok")]
    (fun _ _ => .ok ⟨[⟨"42 USD"⟩]⟩) "Official_cost_proxy"
    [("tool_name", .str "get_monthly_costs"),
     ("arguments", .dict [("months", .int 3)])]
    "https://gw.example/mcp" "tok" rfl rfl (by decide)

/-- C8: when the remote call succeeds, dispatch returns the text of the
first content element of the response, or the dispatcher's empty-result
marker (`"No result"` for the AWS dispatcher, `"Tool executed successfully"`
for the gateway executor) when the response has no content. -/
theorem dispatch_result_normalization
    (tool_name : String) (arguments : Args) (server_name original : String)
    (cfg : ServerConfig) (resp : CallToolResult)
    (hparse : aws_parse tool_name = some (server_name, original))
    (hlookup : AWS_MCP_SERVERS.lookup server_name = some cfg)
    (gconfig : List (String × String)) (gname : String) (gargs : Args) (u t : String)
    (hu : gconfig.lookup "gateway_url" = some u)
    (ht : gconfig.lookup "access_token" = some t) :
    execute_aws_mcp_tool (fun _ _ _ => .ok resp) tool_name arguments
      = .ok (match resp.content with
             | c :: _ => c.text
             | [] => "No result") ∧
    (gateway_execute_tool gconfig (fun _ _ => .ok resp) gname gargs).map Prod.fst
      = .ok (match resp.content with
             | c :: _ => c.text
             | [] => "Tool executed successfully") := by
  constructor
  · simp only [execute_aws_mcp_tool, hparse, hlookup]
    match resp.content with
    | c :: _ => rfl
    | [] => rfl
  · match gconfig with
    | [] => simp at hu
    | _ :: _ =>
      simp only [gateway_execute_tool, hu, ht]
      by_cases hpx : pyContains gname "_proxy" = true
      · simp only [hpx, if_true]
        match resp.content with
        | c :: _ => rfl
        | [] => rfl
      · simp only [eq_false_of_ne_true hpx, if_false]
        match resp.content with
        | c :: _ => rfl
        | [] => rfl

/-- Witness for C8: a routed call on `"aws_cost_get_monthly_costs"` with a
one-element response, and a gateway call with an empty response. -/
theorem dispatch_result_normalization_witness :
    execute_aws_mcp_tool (fun _ _ _ => .ok ⟨[⟨"42 USD"⟩]⟩)
        "aws_cost_get_monthly_costs" [] = .ok "42 USD" ∧
    (gateway_execute_tool
        [("gateway_url", "https://gw.example/mcp"), ("access_token", "tok")]
        (fun _ _ => .ok ⟨[]⟩) "Official_cost" []).map Prod.fst
      = .ok "Tool executed successfully" :=
  ⟨(dispatch_result_normalization "aws_cost_get_monthly_costs" []
      "aws_cost" "get_monthly_costs"
      ⟨"http://localhost:8003/mcp", "AWS cost analysis and optimization"⟩
      ⟨[⟨"42 USD"⟩]⟩ (by decide) (by decide)
      [("gateway_url", "https://gw.example/mcp"), ("access_token", "tok")]
      "Official_cost" [] "https://gw.example/mcp" "tok" rfl rfl).1,
   (dispatch_result_normalization "aws_cost_get_monthly_costs" []
      "aws_cost" "get_monthly_costs"
      ⟨"http://localhost:8003/mcp", "AWS cost analysis and optimization"⟩
      ⟨[]⟩ (by decide) (by decide)
      [("gateway_url", "https://gw.example/mcp"), ("access_token", "tok")]
      "Official_cost" [] "https://gw.example/mcp" "tok" rfl rfl).2⟩

/-- C9: absent configuration is recoverable everywhere it is read —
discovery over a missing server-registry file yields an empty tool list
with a diagnostic, gateway discovery over a missing gateway config likewise,
and gateway dispatch with the (empty) config of a failed load returns the
`"Gateway not configured"` string; none of these paths raises. -/
theorem missing_config_recoverable :
    (∀ connectResult, official_get_all_aws_mcp_tools none connectResult
       = ([], ["❌ AWS MCP config not found. Run setup_aws_official_mcp.py first"])) ∧
    (∀ listing, connect_to_gateway none listing
       = ([], ["❌ Gateway config not found. Run setup_gateway_with_official_mcp.py first"])) ∧
    (∀ call tool_name arguments,
       gateway_execute_tool [] call tool_name arguments
         = .ok ("Gateway not configured", none)) :=
  ⟨fun _ => rfl, fun _ => rfl, fun _ _ _ => rfl⟩

/-- C10: `run_command`'s whitelist constrains only the first
whitespace-separated token — when that token is whitelisted the entire
original command string (any further tokens and metacharacters included) is
handed to the shell, and when it is not (or the input has no tokens) the
refusal string naming the safe commands is returned and no subprocess is
started, whatever the shell would do. -/
theorem run_command_first_token_whitelist (shell : Shell) (command : String) :
    (∀ first rest, pySplitWs command = first :: rest →
       first ∈ safe_commands →
       (run_command shell command).2 = some command) ∧
    (∀ first rest, pySplitWs command = first :: rest →
       first ∉ safe_commands →
       run_command shell command
         = ("Command not allowed. Safe commands: ls, pwd, date, whoami, df, free",
            none)) ∧
    (pySplitWs command = [] →
       run_command shell command
         = ("Command not allowed. Safe commands: ls, pwd, date, whoami, df, free",
            none)) := by
  refine ⟨?_, ?_, ?_⟩
  · intro first rest hsplit hsafe
    simp only [run_command, hsplit, if_pos hsafe]
    match shell command with
    | .ok result => rfl
    | .error e => rfl
  · intro first rest hsplit hsafe
    simp only [run_command, hsplit, if_neg hsafe]
    rfl
  · intro hsplit
    simp only [run_command, hsplit]
    rfl

/-- Witness for C10: a whitelisted first token carries the full string,
shell metacharacters included, to the shell; a non-whitelisted first token
and the empty input are refused. -/
theorem run_command_first_token_whitelist_witness :
    (run_command (fun _ => .ok ("out", "")) "ls -la /tmp; rm -rf /").2
      = some "ls -la /tmp; rm -rf /" ∧
    run_command (fun _ => .ok ("out", "")) "rm -rf /"
      = ("Command not allowed. Safe commands: ls, pwd, date, whoami, df, free",
         none) ∧
    run_command (fun _ => .ok ("out", "")) ""
      = ("Command not allowed. Safe commands: ls, pwd, date, whoami, df, free",
         none) :=
  ⟨(run_command_first_token_whitelist (fun _ => .ok ("out", ""))
      "ls -la /tmp; rm -rf /").1 "ls" ["-la", "/tmp;", "rm", "-rf", "/"]
      (by decide) (by decide),
   (run_command_first_token_whitelist (fun _ => .ok ("out", "")) "rm -rf /").2.1
      "rm" ["-rf", "/"] (by decide) (by decide),
   (run_command_first_token_whitelist (fun _ => .ok ("out", "")) "").2.2
      (by decide)⟩

end AgentCore
